import Mathlib

/-!
Verification development for the senado-monitor application (src/app.py).

The application is a thin client over the Brazilian Senate open-data web
service.  It fetches XML documents, converts them to nested dictionaries
(via xmltodict), normalizes them into tabular form (pandas DataFrames),
and persists a small watchlist as a local JSON file.

Shallow embedding conventions:
  - Python values produced by xmltodict / json.loads are modelled by the
    inductive type PyVal (None, str, int, bool, list, dict).  Dictionaries
    are association lists whose key order is insertion order, matching the
    OrderedDict semantics of xmltodict and the insertion-ordered dicts of
    Python 3.7+.  Floats are not modelled (floating point is outside the
    embedding); numeric values are modelled by Int.
  - Python attribute errors (calling .get on a non-dict) and type errors
    (iterating a non-iterable) are modelled by the Except String monad.
  - The HTTP transport and the XML / JSON parsers are external
    collaborators; they enter the model as components of a FetchEnv record
    (respectively as function arguments for the watchlist loader), so the
    theorems quantify over every possible behaviour of those collaborators.
  - A pandas DataFrame is modelled by its column list together with its
    rows; a cell is Option String, with Option.none playing the role of NaN.
  - Streamlit error notifications (st.error) are modelled by returning the
    list of emitted messages alongside the result.
-/

set_option autoImplicit false

/-- Python values as produced by xmltodict.parse and json.loads. -/
inductive PyVal where
  | none : PyVal
  | str : String → PyVal
  | int : Int → PyVal
  | bool : Bool → PyVal
  | list : List PyVal → PyVal
  | dict : List (String × PyVal) → PyVal

/-- Python truthiness: None, empty string, zero, False, empty containers
are falsy, everything else is truthy. -/
def PyVal.truthy : PyVal → Bool
  | PyVal.none => false
  | PyVal.str s => !s.isEmpty
  | PyVal.int n => n != 0
  | PyVal.bool b => b
  | PyVal.list l => !l.isEmpty
  | PyVal.dict d => !d.isEmpty

/-- The Python expression `a or b`: returns a when a is truthy, else b. -/
def pyOr (a b : PyVal) : PyVal :=
  if a.truthy then a else b

/-- The Python expression `a or b` specialised to strings, where truthiness
is non-emptiness. -/
def strOr (a b : String) : String :=
  if a.isEmpty then b else a

mutual

/-- The Python repr of a value (used by str() on non-string values). -/
def pyRepr : PyVal → String
  | PyVal.none => "None"
  | PyVal.bool b => cond b "True" "False"
  | PyVal.int n => toString n
  | PyVal.str s => "\x27" ++ s ++ "\x27"
  | PyVal.list l => "[" ++ pyReprItems l ++ "]"
  | PyVal.dict d => "\x7b" ++ pyReprPairs d ++ "\x7d"

/-- Comma-separated reprs of the items of a list. -/
def pyReprItems : List PyVal → String
  | [] => ""
  | [x] => pyRepr x
  | x :: xs => pyRepr x ++ ", " ++ pyReprItems xs

/-- Comma-separated reprs of the key-value pairs of a dict. -/
def pyReprPairs : List (String × PyVal) → String
  | [] => ""
  | [(k, v)] => "\x27" ++ k ++ "\x27: " ++ pyRepr v
  | (k, v) :: xs => "\x27" ++ k ++ "\x27: " ++ pyRepr v ++ ", " ++ pyReprPairs xs

end

/-- The Python builtin str(): identity on strings, repr otherwise. -/
def pyStr : PyVal → String
  | PyVal.str s => s
  | v => pyRepr v

/-- The Python str.strip() method (surrounding-whitespace removal),
written with structural list recursion so that it evaluates inside the
kernel; whitespace is Char.isWhitespace. -/
def pyStrip (s : String) : String :=
  String.mk (((s.data.dropWhile Char.isWhitespace).reverse.dropWhile Char.isWhitespace).reverse)

/-- app.py, _clean_text (lines 35-40): None maps to the empty string; int
values (Python isinstance(x, (int, float)); bool is a subclass of int)
map to str(x) with no strip; everything else maps to str(x).strip(). -/
def _clean_text : PyVal → String
  | PyVal.none => ""
  | PyVal.int n => pyStr (PyVal.int n)
  | PyVal.bool b => pyStr (PyVal.bool b)
  | v => pyStrip (pyStr v)

/-- Python dict.get(k): the stored value, or None when the key is absent. -/
def dLookup : List (String × PyVal) → String → PyVal
  | [], _ => PyVal.none
  | kv :: d, k => if kv.1 == k then kv.2 else dLookup d k

/-- The Python expression `v.get(k)`: succeeds on dicts, raises
AttributeError on every other value. -/
def pyGet : PyVal → String → Except String PyVal
  | PyVal.dict d, k => Except.ok (dLookup d k)
  | _, _ => Except.error "AttributeError"

/-- Python iteration over a value: lists yield their items, strings yield
their one-character substrings, dicts yield their keys, every other
value raises TypeError. -/
def pyIterate : PyVal → Except String (List PyVal)
  | PyVal.list l => Except.ok l
  | PyVal.str s => Except.ok (s.toList.map (fun c => PyVal.str (String.singleton c)))
  | PyVal.dict d => Except.ok (d.map (fun kv => PyVal.str kv.1))
  | _ => Except.error "TypeError"

-- ------------------------- Remote fetcher ------------------------------

/-- Outcome of one HTTP GET issued by the requests library: either the
request raised (network error, timeout), or a response with a status
code and a textual body arrived. -/
inductive HttpResult where
  | netError : String → HttpResult
  | response : Nat → String → HttpResult

/-- The external collaborators of the fetch boundary: the HTTP transport
(requests.get) and the XML decoder (xmltodict.parse, which on success
always yields a dictionary with the root element as its single key). -/
structure FetchEnv where
  http : String → List (String × PyVal) → HttpResult
  parseXml : String → Except String (List (String × PyVal))

/-- requests.Response.raise_for_status raises exactly for 4xx and 5xx. -/
def statusRaises (c : Nat) : Bool :=
  400 ≤ c && c < 600

/-- app.py, _get (lines 43-53): GET the url, raise_for_status, parse the
body as XML.  Any failure is caught, reported through st.error and
converted to None.  The second component collects the st.error calls. -/
def _get (env : FetchEnv) (url : String) (params : List (String × PyVal)) :
    Option (List (String × PyVal)) × List String :=
  match env.http url params with
  | HttpResult.netError e =>
      (Option.none, ["Erro ao acessar " ++ url ++ ": " ++ e])
  | HttpResult.response status body =>
      if statusRaises status then
        (Option.none, ["Erro ao acessar " ++ url ++ ": HTTP " ++ toString status])
      else
        match env.parseXml body with
        | Except.error e => (Option.none, ["Erro ao acessar " ++ url ++ ": " ++ e])
        | Except.ok d => (some d, [])

-- ------------------------- DataFrame model -----------------------------

/-- A pandas DataFrame: a column list and a list of rows; each row is a
list of cells aligned with the columns, a cell being Option String with
Option.none in the role of NaN. -/
structure DataFrame where
  columns : List String
  rows : List (List (Option String))

/-- Lookup of a key in a normalized record (ordered string-valued dict). -/
def rowLookup : List (String × String) → String → Option String
  | [], _ => Option.none
  | kv :: r, k => if kv.1 == k then some kv.2 else rowLookup r k

/-- Accumulate column names in first-appearance order (pandas behaviour
when building a DataFrame from a list of dicts). -/
def addKeys (acc : List String) (ks : List String) : List String :=
  ks.foldl (fun a k => if a.contains k then a else a ++ [k]) acc

/-- Column order of pd.DataFrame(list-of-dicts): union of the record keys
in first-appearance order. -/
def recordCols (recs : List (List (String × String))) : List String :=
  recs.foldl (fun acc r => addKeys acc (r.map Prod.fst)) []

/-- pd.DataFrame(list-of-dicts): columns in first-appearance order, one
row per record, missing keys becoming NaN cells. -/
def dfFromRecords (recs : List (List (String × String))) : DataFrame :=
  let cols := recordCols recs
  DataFrame.mk cols (recs.map (fun r => cols.map (fun c => rowLookup r c)))

/-- First index of a key in a column list. -/
def idxOf (k : String) : List String → Option Nat
  | [] => Option.none
  | c :: cs => if c == k then some 0 else (idxOf k cs).map (fun i => i + 1)

/-- DataFrame.reindex(columns=cols): keeps the cells of columns that
already exist and fills new columns with NaN. -/
def DataFrame.reindexCols (df : DataFrame) (cols : List String) : DataFrame :=
  DataFrame.mk cols
    (df.rows.map (fun row => cols.map (fun c =>
      match idxOf c df.columns with
      | some i => (row.get? i).join
      | Option.none => Option.none)))

-- ------------------------- Search (pesquisar_materias) -----------------

def BASE : String := "https://legis.senado.leg.br/dadosabertos"

/-- app.py, pesquisar_materias (lines 75-88): the outbound parameter dict.
Filters pass through Python truthiness tests (`if sigla:` etc.), except
tramitando which is tested against None and encoded "S"/"N". -/
def pesquisar_params (sigla : Option String) (ano : Option Int)
    (palavra_chave : Option String) (codigo_situacao : Option String)
    (tramitando : Option Bool) (indicador_situacao_atual : Option String) :
    List (String × PyVal) :=
  (match sigla with
   | some s => if s.isEmpty then [] else [("sigla", PyVal.str s)]
   | Option.none => []) ++
  (match ano with
   | some n => if n = 0 then [] else [("ano", PyVal.int n)]
   | Option.none => []) ++
  (match palavra_chave with
   | some s => if s.isEmpty then [] else [("palavraChave", PyVal.str s)]
   | Option.none => []) ++
  (match codigo_situacao with
   | some s => if s.isEmpty then [] else [("codigoSituacao", PyVal.str s)]
   | Option.none => []) ++
  (match tramitando with
   | some b => [("tramitando", PyVal.str (cond b "S" "N"))]
   | Option.none => []) ++
  (match indicador_situacao_atual with
   | some s => if s.isEmpty then [] else [("indicadorSituacaoAtual", PyVal.str s)]
   | Option.none => [])

/-- The declared column order of the search table (app.py line 119). -/
def eightCols : List String :=
  ["codigo", "sigla", "numero", "ano", "ementa", "autor", "situacao", "link_tramitacao"]

/-- app.py, pesquisar_materias (lines 106-115): the row dict built for one
Materia record m, with the field accesses in source order. -/
def materiaRow (m : PyVal) : Except String (List (String × String)) := do
  let codigo ← pyGet m "Codigo"
  let sigla ← pyGet m "Sigla"
  let numero ← pyGet m "Numero"
  let ano ← pyGet m "Ano"
  let ementa ← pyGet m "Ementa"
  let autor ← pyGet m "Autor"
  let sitB ← pyGet m "SituacaoAtual"
  let situ ← pyGet (pyOr sitB (PyVal.dict [])) "DescricaoSituacao"
  let l1 ← pyGet m "LinkProcesso"
  let l2 ← pyGet m "UrlTramitacao"
  Except.ok
    [("codigo", _clean_text codigo),
     ("sigla", _clean_text sigla),
     ("numero", _clean_text numero),
     ("ano", _clean_text ano),
     ("ementa", _clean_text ementa),
     ("autor", _clean_text autor),
     ("situacao", _clean_text situ),
     ("link_tramitacao", _clean_text (pyOr l1 (pyOr l2 (PyVal.str ""))))]

/-- The `for m in materias: rows.append(...)` loop: builds the records in
order, propagating the first exception. -/
def mapRows (f : PyVal → Except String (List (String × String))) :
    List PyVal → Except String (List (List (String × String)))
  | [] => Except.ok []
  | m :: ms => do
    let r ← f m
    let rs ← mapRows f ms
    Except.ok (r :: rs)

/-- app.py, pesquisar_materias (lines 95-96): locate the record container.
raiz is the first truthy of doc.get("PesquisaBasicaMateria"),
doc.get("PesquisaBasicaMateriav7") and doc itself; then
(((raiz or empty-dict).get("Materias")) or empty-dict).get("Materia"). -/
def pesquisar_locate (doc : List (String × PyVal)) : Except String PyVal := do
  let raiz := pyOr (dLookup doc "PesquisaBasicaMateria")
      (pyOr (dLookup doc "PesquisaBasicaMateriav7") (PyVal.dict doc))
  let ms ← pyGet (pyOr raiz (PyVal.dict [])) "Materias"
  pyGet (pyOr ms (PyVal.dict [])) "Materia"

/-- app.py, pesquisar_materias (lines 98-121): given the located Materia
value, build the table.  None means zero records and an empty frame; a
lone dict is wrapped in a one-element list; iteration, row building and
the final reindex to the eight declared columns follow the source. -/
def pesquisar_from : PyVal → Except String DataFrame
  | PyVal.none => Except.ok (DataFrame.mk [] [])
  | v => do
    let lst ← (match v with
      | PyVal.dict d => Except.ok [PyVal.dict d]
      | x => pyIterate x)
    let recs ← mapRows materiaRow lst
    Except.ok ((dfFromRecords recs).reindexCols eightCols)

/-- The full normalization of a parsed search response. -/
def pesquisar_normalize (doc : List (String × PyVal)) : Except String DataFrame := do
  let v ← pesquisar_locate doc
  pesquisar_from v

/-- app.py, pesquisar_materias (lines 58-121): the whole operation, from
parameter building through fetch, falsy-document check and
normalization.  The second component carries the st.error messages. -/
def pesquisar_materias (env : FetchEnv) (sigla : Option String) (ano : Option Int)
    (palavra_chave : Option String) (codigo_situacao : Option String)
    (tramitando : Option Bool) (indicador_situacao_atual : Option String) :
    Except String DataFrame × List String :=
  let url := BASE ++ "/materia/pesquisa/lista"
  let params := pesquisar_params sigla ano palavra_chave codigo_situacao
      tramitando indicador_situacao_atual
  match _get env url params with
  | (Option.none, errs) => (Except.ok (DataFrame.mk [] []), errs)
  | (some doc, errs) =>
      if doc.isEmpty then (Except.ok (DataFrame.mk [] []), errs)
      else (pesquisar_normalize doc, errs)

-- ------------------------- Current status (situacao_atual) -------------

/-- app.py, situacao_atual (lines 130-138): the normalization of a truthy
parsed document into the four-field status record. -/
def situacao_normalize (codigo : String) (doc : List (String × PyVal)) :
    Except String (List (String × String)) := do
  let raiz := pyOr (dLookup doc "SituacaoAtualMateria") (PyVal.dict doc)
  let mv ← pyGet raiz "Materia"
  let materia := pyOr mv (PyVal.dict [])
  let sv ← pyGet raiz "SituacaoAtual"
  let sit := pyOr sv (PyVal.dict [])
  let cod ← pyGet materia "Codigo"
  let desc ← pyGet sit "DescricaoSituacao"
  let dat ← pyGet sit "DataSituacao"
  let org ← pyGet sit "DescricaoOrgao"
  Except.ok
    [("codigo", strOr (_clean_text cod) (_clean_text (PyVal.str codigo))),
     ("descricao", _clean_text desc),
     ("data", _clean_text dat),
     ("orgao", _clean_text org)]

/-- app.py, situacao_atual (lines 124-138): fetch, falsy-document check,
normalization.  The empty association list models the empty dict. -/
def situacao_atual (env : FetchEnv) (codigo : String) :
    Except String (List (String × String)) × List String :=
  let url := BASE ++ "/materia/situacaoatual/" ++ codigo
  match _get env url [] with
  | (Option.none, errs) => (Except.ok [], errs)
  | (some doc, errs) =>
      if doc.isEmpty then (Except.ok [], errs)
      else (situacao_normalize codigo doc, errs)

-- ------------------------- Recent updates (materias_atualizadas) -------

/-- app.py, materias_atualizadas (lines 159-166): the row dict built for
one updated Materia record. -/
def atualizadaRow (m : PyVal) : Except String (List (String × String)) := do
  let codigo ← pyGet m "Codigo"
  let sigla ← pyGet m "Sigla"
  let numero ← pyGet m "Numero"
  let ano ← pyGet m "Ano"
  let d1 ← pyGet m "DataUltimaAtualizacao"
  let d2 ← pyGet m "DataAtualizacao"
  let ementa ← pyGet m "Ementa"
  Except.ok
    [("codigo", _clean_text codigo),
     ("sigla", _clean_text sigla),
     ("numero", _clean_text numero),
     ("ano", _clean_text ano),
     ("ultima_atualizacao", _clean_text (pyOr d1 d2)),
     ("ementa", _clean_text ementa)]

/-- app.py, materias_atualizadas (lines 150-151): locate the record
container.  Unlike the search path there is no `or empty-dict` guard
between raiz and its first .get. -/
def atualizadas_locate (doc : List (String × PyVal)) : Except String PyVal := do
  let raiz := pyOr (dLookup doc "AtualizacoesMateria") (PyVal.dict doc)
  let ms ← pyGet raiz "Materias"
  pyGet (pyOr ms (PyVal.dict [])) "Materia"

/-- app.py, materias_atualizadas (lines 152-167): table building from the
located value; no reindex step on this path. -/
def atualizadas_from : PyVal → Except String DataFrame
  | PyVal.none => Except.ok (DataFrame.mk [] [])
  | v => do
    let lst ← (match v with
      | PyVal.dict d => Except.ok [PyVal.dict d]
      | x => pyIterate x)
    let recs ← mapRows atualizadaRow lst
    Except.ok (dfFromRecords recs)

/-- The full normalization of a parsed recent-updates response. -/
def atualizadas_normalize (doc : List (String × PyVal)) : Except String DataFrame := do
  let v ← atualizadas_locate doc
  atualizadas_from v

/-- app.py, materias_atualizadas (lines 141-167): the whole operation. -/
def materias_atualizadas (env : FetchEnv) : Except String DataFrame × List String :=
  let url := BASE ++ "/materia/atualizadas"
  match _get env url [] with
  | (Option.none, errs) => (Except.ok (DataFrame.mk [] []), errs)
  | (some doc, errs) =>
      if doc.isEmpty then (Except.ok (DataFrame.mk [] []), errs)
      else (atualizadas_normalize doc, errs)

-- ------------------------- Watchlist store -----------------------------

/-- The fresh empty watchlist structure of app.py lines 177-178. -/
def freshWatchlist : PyVal :=
  PyVal.dict [("itens", PyVal.dict []), ("historico", PyVal.list [])]

/-- app.py, load_watchlist (lines 172-178).  The filesystem and the JSON
decoder are external collaborators: fileExists models
WATCHFILE.exists(), readText the outcome of WATCHFILE.read_text (which
may raise), jsonLoads the json.loads parser (which may raise).  Both
raises happen inside the try block and fall back to the fresh
structure. -/
def load_watchlist (fileExists : Bool) (readText : Except String String)
    (jsonLoads : String → Except String PyVal) : PyVal :=
  if fileExists then
    match readText with
    | Except.error _ => freshWatchlist
    | Except.ok txt =>
        match jsonLoads txt with
        | Except.error _ => freshWatchlist
        | Except.ok v => v
  else freshWatchlist

-- ------------------------- Concrete test fixtures ----------------------

/-- An environment whose transport always answers 200 with a body that
parses to the given document. -/
def constEnv (doc : List (String × PyVal)) : FetchEnv :=
  FetchEnv.mk (fun _ _ => HttpResult.response 200 "<xml/>") (fun _ => Except.ok doc)

/-- An environment whose transport always fails with a network error. -/
def envNet : FetchEnv :=
  FetchEnv.mk (fun _ _ => HttpResult.netError "connection refused")
    (fun _ => Except.error "unused")

/-- An environment answering HTTP 500. -/
def envHttp500 : FetchEnv :=
  FetchEnv.mk (fun _ _ => HttpResult.response 500 "oops") (fun _ => Except.error "unused")

/-- An environment answering 200 with a body the XML decoder rejects. -/
def envParseErr : FetchEnv :=
  FetchEnv.mk (fun _ _ => HttpResult.response 200 "not xml")
    (fun _ => Except.error "malformed xml body")

/-- A fully populated Materia record. -/
def matC1a : List (String × PyVal) :=
  [("Codigo", PyVal.str "100"), ("Sigla", PyVal.str "PL"), ("Numero", PyVal.str "1"),
   ("Ano", PyVal.str "2025"), ("Ementa", PyVal.str "E1"), ("Autor", PyVal.str "A1"),
   ("SituacaoAtual", PyVal.dict [("DescricaoSituacao", PyVal.str "Em tramitacao")]),
   ("LinkProcesso", PyVal.str "http://x")]

/-- A Materia record with only a Codigo field. -/
def matC1b : List (String × PyVal) :=
  [("Codigo", PyVal.str "101")]

/-- A search response with two Materia elements. -/
def docC1 : List (String × PyVal) :=
  [("PesquisaBasicaMateria", PyVal.dict [("Materias", PyVal.dict
     [("Materia", PyVal.list [PyVal.dict matC1a, PyVal.dict matC1b])])])]

/-- The table the search scenario of docC1 produces. -/
def dfC1 : DataFrame :=
  DataFrame.mk eightCols
    [[some "100", some "PL", some "1", some "2025", some "E1", some "A1",
      some "Em tramitacao", some "http://x"],
     [some "101", some "", some "", some "", some "", some "", some "", some ""]]

/-- A record that omits every optional field except Codigo. -/
def matWit : List (String × PyVal) :=
  [("Codigo", PyVal.str "7")]

/-- The row built from matWit. -/
def rowWit : List (String × String) :=
  [("codigo", "7"), ("sigla", ""), ("numero", ""), ("ano", ""), ("ementa", ""),
   ("autor", ""), ("situacao", ""), ("link_tramitacao", "")]

/-- A search response whose lone Materia collapsed to a single mapping. -/
def docC2dict : List (String × PyVal) :=
  [("PesquisaBasicaMateria", PyVal.dict [("Materias", PyVal.dict
     [("Materia", PyVal.dict matWit)])])]

/-- The same response with the Materia as a one-element sequence. -/
def docC2list : List (String × PyVal) :=
  [("PesquisaBasicaMateria", PyVal.dict [("Materias", PyVal.dict
     [("Materia", PyVal.list [PyVal.dict matWit])])])]

/-- A recent-updates response whose lone Materia collapsed to a mapping. -/
def docC2adict : List (String × PyVal) :=
  [("AtualizacoesMateria", PyVal.dict [("Materias", PyVal.dict
     [("Materia", PyVal.dict matWit)])])]

/-- The same recent-updates response with a one-element sequence. -/
def docC2alist : List (String × PyVal) :=
  [("AtualizacoesMateria", PyVal.dict [("Materias", PyVal.dict
     [("Materia", PyVal.list [PyVal.dict matWit])])])]

/-- A status response that parsed fine but holds no Materia and no
SituacaoAtual content. -/
def docC6 : List (String × PyVal) :=
  [("SituacaoAtualMateria", PyVal.dict [])]

-- ------------------------- Helper lemmas -------------------------------

lemma rowLookup_isSome : ∀ (r : List (String × String)) (k : String),
    k ∈ r.map Prod.fst → ∃ v, rowLookup r k = some v := by
  intro r k hk
  induction r with
  | nil => simp at hk
  | cons a r ih =>
    by_cases h : a.1 == k
    · exact ⟨a.2, by simp [rowLookup, h]⟩
    · rw [List.map_cons, List.mem_cons] at hk
      have hk2 : k ∈ r.map Prod.fst := by
        rcases hk with h1 | h2
        · exact absurd (by simp [h1]) h
        · exact h2
      obtain ⟨v, hv⟩ := ih hk2
      exact ⟨v, by simp [rowLookup, h, hv]⟩

lemma mapRows_ok_mem (f : PyVal → Except String (List (String × String))) :
    ∀ (l : List PyVal) (res : List (List (String × String))),
    mapRows f l = Except.ok res → ∀ r ∈ res, ∃ m ∈ l, f m = Except.ok r := by
  intro l
  induction l with
  | nil =>
    intro res h r hr
    simp only [mapRows] at h
    cases h
    simp at hr
  | cons m ms ih =>
    intro res h r hr
    simp only [mapRows, bind, Except.bind] at h
    cases hf : f m with
    | error e => rw [hf] at h; cases h
    | ok r0 =>
      rw [hf] at h
      cases hrest : mapRows f ms with
      | error e => rw [hrest] at h; cases h
      | ok rs =>
        rw [hrest] at h
        cases h
        rcases List.mem_cons.mp hr with h1 | h2
        · exact ⟨m, List.mem_cons_self m ms, h1 ▸ hf⟩
        · obtain ⟨m2, hm2, hfm2⟩ := ih rs hrest r h2
          exact ⟨m2, List.mem_cons_of_mem m hm2, hfm2⟩

lemma mapRows_ok_length (f : PyVal → Except String (List (String × String))) :
    ∀ (l : List PyVal) (res : List (List (String × String))),
    mapRows f l = Except.ok res → res.length = l.length := by
  intro l
  induction l with
  | nil => intro res h; simp only [mapRows] at h; cases h; rfl
  | cons m ms ih =>
    intro res h
    simp only [mapRows, bind, Except.bind] at h
    cases hf : f m with
    | error e => rw [hf] at h; cases h
    | ok r0 =>
      rw [hf] at h
      cases hrest : mapRows f ms with
      | error e => rw [hrest] at h; cases h
      | ok rs =>
        rw [hrest] at h
        cases h
        simp [ih rs hrest]

lemma pyGet_dict (d : List (String × PyVal)) (k : String) :
    pyGet (PyVal.dict d) k = Except.ok (dLookup d k) := rfl

lemma pyOr_none (b : PyVal) : pyOr PyVal.none b = b := rfl

lemma materiaRow_keys (m : PyVal) (row : List (String × String))
    (h : materiaRow m = Except.ok row) : row.map Prod.fst = eightCols := by
  cases m with
  | dict d =>
    simp only [materiaRow, pyGet_dict, bind, Except.bind] at h
    cases hs : pyGet (pyOr (dLookup d "SituacaoAtual") (PyVal.dict [])) "DescricaoSituacao" with
    | error e => rw [hs] at h; cases h
    | ok sv => rw [hs] at h; cases h; rfl
  | none => exact Except.noConfusion h
  | str s => exact Except.noConfusion h
  | int n => exact Except.noConfusion h
  | bool b => exact Except.noConfusion h
  | list l => exact Except.noConfusion h

lemma addKeys_nil_eight : addKeys [] eightCols = eightCols := rfl

lemma addKeys_eight_eight : addKeys eightCols eightCols = eightCols := rfl

lemma foldl_addKeys_eight : ∀ (recs : List (List (String × String))),
    (∀ r ∈ recs, r.map Prod.fst = eightCols) →
    recs.foldl (fun acc r => addKeys acc (r.map Prod.fst)) eightCols = eightCols := by
  intro recs
  induction recs with
  | nil => intro _; rfl
  | cons r rs ih =>
    intro h
    rw [List.foldl_cons, h r (List.mem_cons_self r rs), addKeys_eight_eight]
    exact ih (fun x hx => h x (List.mem_cons_of_mem r hx))

lemma recordCols_uniform (recs : List (List (String × String)))
    (h : ∀ r ∈ recs, r.map Prod.fst = eightCols) (hne : recs ≠ []) :
    recordCols recs = eightCols := by
  cases recs with
  | nil => cases hne rfl
  | cons r rs =>
    rw [recordCols, List.foldl_cons, h r (List.mem_cons_self r rs), addKeys_nil_eight]
    exact foldl_addKeys_eight rs (fun x hx => h x (List.mem_cons_of_mem r hx))

lemma reindexRow_eight (a0 a1 a2 a3 a4 a5 a6 a7 : Option String) :
    eightCols.map (fun c =>
      match idxOf c eightCols with
      | some i => (([a0, a1, a2, a3, a4, a5, a6, a7] : List (Option String)).get? i).join
      | Option.none => Option.none) = [a0, a1, a2, a3, a4, a5, a6, a7] := rfl

lemma srcRow_eight (r : List (String × String)) :
    eightCols.map (fun c => rowLookup r c) =
    [rowLookup r "codigo", rowLookup r "sigla", rowLookup r "numero", rowLookup r "ano",
     rowLookup r "ementa", rowLookup r "autor", rowLookup r "situacao",
     rowLookup r "link_tramitacao"] := rfl

lemma df_shape (recs : List (List (String × String)))
    (h : ∀ r ∈ recs, r.map Prod.fst = eightCols) :
    ((dfFromRecords recs).reindexCols eightCols).columns = eightCols ∧
    ∀ row ∈ ((dfFromRecords recs).reindexCols eightCols).rows,
      row.length = 8 ∧ ∀ cell ∈ row, ∃ s, cell = some s := by
  refine ⟨rfl, ?_⟩
  intro row hrow
  cases hrecs : recs with
  | nil =>
    subst hrecs
    simp [dfFromRecords, DataFrame.reindexCols] at hrow
  | cons r0 rs =>
    have hcols : recordCols recs = eightCols :=
      recordCols_uniform recs h (by rw [hrecs]; simp)
    simp only [dfFromRecords, DataFrame.reindexCols, hcols, List.map_map, List.mem_map] at hrow
    obtain ⟨r, hr, hrw⟩ := hrow
    have hkeys := h r hr
    rw [Function.comp, srcRow_eight r, reindexRow_eight] at hrw
    rw [← hrw]
    constructor
    · rfl
    · intro cell hcell
      rw [← srcRow_eight r] at hcell
      obtain ⟨k, hk, hkc⟩ := List.mem_map.mp hcell
      have : k ∈ r.map Prod.fst := by rw [hkeys]; exact hk
      obtain ⟨v, hv⟩ := rowLookup_isSome r k this
      exact ⟨v, by rw [← hkc, hv]⟩

lemma pesquisar_from_shape : ∀ (v : PyVal) (df : DataFrame),
    pesquisar_from v = Except.ok df →
    (df.columns = eightCols ∧
      ∀ row ∈ df.rows, row.length = 8 ∧ ∀ cell ∈ row, ∃ s, cell = some s) ∨
    df = DataFrame.mk [] [] := by
  intro v df h
  cases v with
  | none =>
    right
    simp only [pesquisar_from] at h
    cases h
    rfl
  | dict d =>
    left
    simp only [pesquisar_from, bind, Except.bind] at h
    cases hm : mapRows materiaRow [PyVal.dict d] with
    | error e => rw [hm] at h; cases h
    | ok recs =>
      rw [hm] at h
      cases h
      exact df_shape recs (fun r hr => by
        obtain ⟨m, _, hfm⟩ := mapRows_ok_mem materiaRow _ recs hm r hr
        exact materiaRow_keys m r hfm)
  | list l =>
    left
    simp only [pesquisar_from, pyIterate, bind, Except.bind] at h
    cases hm : mapRows materiaRow l with
    | error e => rw [hm] at h; cases h
    | ok recs =>
      rw [hm] at h
      cases h
      exact df_shape recs (fun r hr => by
        obtain ⟨m, _, hfm⟩ := mapRows_ok_mem materiaRow _ recs hm r hr
        exact materiaRow_keys m r hfm)
  | str s =>
    left
    simp only [pesquisar_from, pyIterate, bind, Except.bind] at h
    cases hm : mapRows materiaRow (s.toList.map (fun c => PyVal.str (String.singleton c))) with
    | error e => rw [hm] at h; cases h
    | ok recs =>
      rw [hm] at h
      cases h
      exact df_shape recs (fun r hr => by
        obtain ⟨m, _, hfm⟩ := mapRows_ok_mem materiaRow _ recs hm r hr
        exact materiaRow_keys m r hfm)
  | int n =>
    simp only [pesquisar_from, pyIterate, bind, Except.bind] at h
    cases h
  | bool b =>
    simp only [pesquisar_from, pyIterate, bind, Except.bind] at h
    cases h

lemma pesquisar_normalize_shape : ∀ (doc : List (String × PyVal)) (df : DataFrame),
    pesquisar_normalize doc = Except.ok df →
    (df.columns = eightCols ∧
      ∀ row ∈ df.rows, row.length = 8 ∧ ∀ cell ∈ row, ∃ s, cell = some s) ∨
    df = DataFrame.mk [] [] := by
  intro doc df h
  simp only [pesquisar_normalize, bind, Except.bind] at h
  cases hl : pesquisar_locate doc with
  | error e => rw [hl] at h; cases h
  | ok v => rw [hl] at h; exact pesquisar_from_shape v df h

-- ------------------------- C1 ------------------------------------------

/-- C1: for every successful search response whose record container yields
at least one record (observable as a nonempty row list), the table
returned by pesquisar_materias has exactly the eight declared bill
columns in order, and every cell is a string (no NaN cell).  Moreover a
record with a missing SituacaoAtual block builds its row without an
exception, and a missing Ementa field or missing link fields yield the
empty string in the corresponding cell. -/
theorem c1_rows_have_eight_string_columns :
    (∀ (env : FetchEnv) (sigla : Option String) (ano : Option Int)
       (palavra_chave codigo_situacao : Option String) (tramitando : Option Bool)
       (indicador : Option String) (df : DataFrame) (errs : List String),
       pesquisar_materias env sigla ano palavra_chave codigo_situacao tramitando indicador
         = (Except.ok df, errs) →
       df.rows ≠ [] →
       df.columns = eightCols ∧
         ∀ row ∈ df.rows, row.length = 8 ∧ ∀ cell ∈ row, ∃ s, cell = some s)
    ∧ (∀ d : List (String × PyVal), dLookup d "SituacaoAtual" = PyVal.none →
         ∃ row, materiaRow (PyVal.dict d) = Except.ok row)
    ∧ (∀ (d : List (String × PyVal)) (row : List (String × String)),
         materiaRow (PyVal.dict d) = Except.ok row →
         (dLookup d "Ementa" = PyVal.none → rowLookup row "ementa" = some "") ∧
         (dLookup d "LinkProcesso" = PyVal.none → dLookup d "UrlTramitacao" = PyVal.none →
           rowLookup row "link_tramitacao" = some "")) := by
  refine ⟨?_, ?_, ?_⟩
  · intro env sigla ano pc cs tr ind df errs h hne
    simp only [pesquisar_materias] at h
    split at h
    · rw [Prod.mk.injEq] at h
      cases h.1
      cases hne rfl
    · split at h
      · rw [Prod.mk.injEq] at h
        cases h.1
        cases hne rfl
      · rw [Prod.mk.injEq] at h
        rcases pesquisar_normalize_shape _ df h.1 with hs | hs
        · exact hs
        · rw [hs] at hne
          cases hne rfl
  · intro d hSA
    refine ⟨[("codigo", _clean_text (dLookup d "Codigo")),
             ("sigla", _clean_text (dLookup d "Sigla")),
             ("numero", _clean_text (dLookup d "Numero")),
             ("ano", _clean_text (dLookup d "Ano")),
             ("ementa", _clean_text (dLookup d "Ementa")),
             ("autor", _clean_text (dLookup d "Autor")),
             ("situacao", ""),
             ("link_tramitacao", _clean_text (pyOr (dLookup d "LinkProcesso")
                (pyOr (dLookup d "UrlTramitacao") (PyVal.str ""))))], ?_⟩
    simp only [materiaRow, pyGet_dict, bind, Except.bind, hSA, pyOr_none]
    rfl
  · intro d row h
    simp only [materiaRow, pyGet_dict, bind, Except.bind] at h
    cases hs : pyGet (pyOr (dLookup d "SituacaoAtual") (PyVal.dict [])) "DescricaoSituacao" with
    | error e => rw [hs] at h; cases h
    | ok sv =>
      rw [hs] at h
      cases h
      constructor
      · intro hE
        rw [hE]
        rfl
      · intro hL hU
        rw [hL, hU]
        rfl

/-- Witness for C1: the spec scenario (sigla "PL", ano 2025, two Materia
elements) produces a two-row table with the eight declared columns, and
the sparse record matWit builds an all-defaults row. -/
theorem c1_witness :
    (dfC1.columns = eightCols ∧
      ∀ row ∈ dfC1.rows, row.length = 8 ∧ ∀ cell ∈ row, ∃ s, cell = some s) ∧
    rowLookup rowWit "ementa" = some "" ∧
    rowLookup rowWit "link_tramitacao" = some "" := by
  refine ⟨c1_rows_have_eight_string_columns.1 (constEnv docC1) (some "PL") (some 2025)
      Option.none Option.none Option.none Option.none dfC1 [] rfl (by simp [dfC1]),
    (c1_rows_have_eight_string_columns.2.2 matWit rowWit rfl).1 rfl,
    (c1_rows_have_eight_string_columns.2.2 matWit rowWit rfl).2 rfl rfl⟩

-- ------------------------- C2 ------------------------------------------

lemma pesquisar_from_dict_rows (d : List (String × PyVal)) (df : DataFrame)
    (h : pesquisar_from (PyVal.dict d) = Except.ok df) : df.rows.length = 1 := by
  simp only [pesquisar_from, bind, Except.bind] at h
  cases hm : mapRows materiaRow [PyVal.dict d] with
  | error e => rw [hm] at h; cases h
  | ok recs =>
    rw [hm] at h
    cases h
    have hlen : recs.length = 1 := mapRows_ok_length materiaRow _ recs hm
    simp [DataFrame.reindexCols, dfFromRecords, hlen]

lemma atualizadas_from_dict_rows (d : List (String × PyVal)) (df : DataFrame)
    (h : atualizadas_from (PyVal.dict d) = Except.ok df) : df.rows.length = 1 := by
  simp only [atualizadas_from, bind, Except.bind] at h
  cases hm : mapRows atualizadaRow [PyVal.dict d] with
  | error e => rw [hm] at h; cases h
  | ok recs =>
    rw [hm] at h
    cases h
    have hlen : recs.length = 1 := mapRows_ok_length atualizadaRow _ recs hm
    simp [dfFromRecords, hlen]

/-- C2: when the located record container is a single mapping (the XML
parse collapsed a lone repeated element), both normalizing query
functions treat it exactly like the one-element sequence around it, and
a successful result is a one-row table. -/
theorem c2_lone_mapping_one_row :
    (∀ (doc1 doc2 : List (String × PyVal)) (d : List (String × PyVal)),
       pesquisar_locate doc1 = Except.ok (PyVal.dict d) →
       pesquisar_locate doc2 = Except.ok (PyVal.list [PyVal.dict d]) →
       pesquisar_normalize doc1 = pesquisar_normalize doc2 ∧
         ∀ df, pesquisar_normalize doc1 = Except.ok df → df.rows.length = 1)
    ∧ (∀ (doc1 doc2 : List (String × PyVal)) (d : List (String × PyVal)),
       atualizadas_locate doc1 = Except.ok (PyVal.dict d) →
       atualizadas_locate doc2 = Except.ok (PyVal.list [PyVal.dict d]) →
       atualizadas_normalize doc1 = atualizadas_normalize doc2 ∧
         ∀ df, atualizadas_normalize doc1 = Except.ok df → df.rows.length = 1) := by
  constructor
  · intro doc1 doc2 d h1 h2
    have e1 : pesquisar_normalize doc1 = pesquisar_from (PyVal.dict d) := by
      simp only [pesquisar_normalize, bind, Except.bind, h1]
    have e2 : pesquisar_normalize doc2 = pesquisar_from (PyVal.list [PyVal.dict d]) := by
      simp only [pesquisar_normalize, bind, Except.bind, h2]
    have e3 : pesquisar_from (PyVal.dict d) = pesquisar_from (PyVal.list [PyVal.dict d]) := rfl
    refine ⟨by rw [e1, e2, ← e3], ?_⟩
    intro df hdf
    rw [e1] at hdf
    exact pesquisar_from_dict_rows d df hdf
  · intro doc1 doc2 d h1 h2
    have e1 : atualizadas_normalize doc1 = atualizadas_from (PyVal.dict d) := by
      simp only [atualizadas_normalize, bind, Except.bind, h1]
    have e2 : atualizadas_normalize doc2 = atualizadas_from (PyVal.list [PyVal.dict d]) := by
      simp only [atualizadas_normalize, bind, Except.bind, h2]
    have e3 : atualizadas_from (PyVal.dict d) = atualizadas_from (PyVal.list [PyVal.dict d]) := rfl
    refine ⟨by rw [e1, e2, ← e3], ?_⟩
    intro df hdf
    rw [e1] at hdf
    exact atualizadas_from_dict_rows d df hdf

/-- Witness for C2: concrete collapsed-mapping responses for the search
and recent-updates endpoints, checked against their sequence forms. -/
theorem c2_witness :
    (pesquisar_normalize docC2dict = pesquisar_normalize docC2list ∧
      (DataFrame.mk eightCols
        [[some "7", some "", some "", some "", some "", some "", some "", some ""]]).rows.length
        = 1) ∧
    (atualizadas_normalize docC2adict = atualizadas_normalize docC2alist ∧
      (DataFrame.mk
        ["codigo", "sigla", "numero", "ano", "ultima_atualizacao", "ementa"]
        [[some "7", some "", some "", some "", some "", some ""]]).rows.length = 1) := by
  have h1 := c2_lone_mapping_one_row.1 docC2dict docC2list matWit rfl rfl
  have h2 := c2_lone_mapping_one_row.2 docC2adict docC2alist matWit rfl rfl
  exact ⟨⟨h1.1, h1.2 _ rfl⟩, ⟨h2.1, h2.2 _ rfl⟩⟩

-- ------------------------- C3 ------------------------------------------

/-- C3: load_watchlist is total (it returns a value for every behaviour of
the filesystem and the JSON parser, hence never raises), and returns the
fresh empty structure when the file is absent, when reading it raises,
and when its content fails to parse. -/
theorem c3_load_watchlist_never_raises :
    ∀ (fileExists : Bool) (readText : Except String String)
      (jsonLoads : String → Except String PyVal),
      (fileExists = false → load_watchlist fileExists readText jsonLoads = freshWatchlist) ∧
      (∀ e, readText = Except.error e →
        load_watchlist fileExists readText jsonLoads = freshWatchlist) ∧
      (∀ t e, readText = Except.ok t → jsonLoads t = Except.error e →
        load_watchlist fileExists readText jsonLoads = freshWatchlist) := by
  intro fe rt jl
  refine ⟨?_, ?_, ?_⟩
  · intro h
    rw [h]
    rfl
  · intro e h
    cases fe with
    | false => rfl
    | true => simp [load_watchlist, h]
  · intro t e h1 h2
    cases fe with
    | false => rfl
    | true => simp [load_watchlist, h1, h2]

/-- Witness for C3: a missing file, an unreadable file and an unparsable
file each load as the fresh structure. -/
theorem c3_witness :
    load_watchlist false (Except.ok "ignored") (fun _ => Except.ok PyVal.none)
      = freshWatchlist ∧
    load_watchlist true (Except.error "io error") (fun _ => Except.ok PyVal.none)
      = freshWatchlist ∧
    load_watchlist true (Except.ok "not json") (fun _ => Except.error "bad")
      = freshWatchlist := by
  refine ⟨(c3_load_watchlist_never_raises false (Except.ok "ignored")
      (fun _ => Except.ok PyVal.none)).1 rfl,
    (c3_load_watchlist_never_raises true (Except.error "io error")
      (fun _ => Except.ok PyVal.none)).2.1 "io error" rfl,
    (c3_load_watchlist_never_raises true (Except.ok "not json")
      (fun _ => Except.error "bad")).2.2 "not json" "bad" rfl rfl⟩

-- ------------------------- C4 ------------------------------------------

/-- C4: the fetch boundary is total (never raises): a network error, an
HTTP error status (the statuses raise_for_status rejects, 4xx and 5xx)
and an XML parse failure each produce the absent sentinel together with
a user-visible error notification, while a success produces the parsed
document and no notification. -/
theorem c4__get_never_raises :
    ∀ (env : FetchEnv) (url : String) (params : List (String × PyVal)),
      (∀ e, env.http url params = HttpResult.netError e →
        (_get env url params).1 = Option.none ∧ (_get env url params).2 ≠ []) ∧
      (∀ st body, env.http url params = HttpResult.response st body →
        statusRaises st = true →
        (_get env url params).1 = Option.none ∧ (_get env url params).2 ≠ []) ∧
      (∀ st body e, env.http url params = HttpResult.response st body →
        statusRaises st = false → env.parseXml body = Except.error e →
        (_get env url params).1 = Option.none ∧ (_get env url params).2 ≠ []) ∧
      (∀ st body d, env.http url params = HttpResult.response st body →
        statusRaises st = false → env.parseXml body = Except.ok d →
        _get env url params = (some d, [])) := by
  intro env url params
  refine ⟨?_, ?_, ?_, ?_⟩
  · intro e h
    simp [_get, h]
  · intro st body h hs
    simp [_get, h, hs]
  · intro st body e h hs hp
    simp [_get, h, hs, hp]
  · intro st body d h hs hp
    simp [_get, h, hs, hp]

/-- Witness for C4: the four outcomes at concrete environments. -/
theorem c4_witness :
    ((_get envNet "u" []).1 = Option.none ∧ (_get envNet "u" []).2 ≠ []) ∧
    ((_get envHttp500 "u" []).1 = Option.none ∧ (_get envHttp500 "u" []).2 ≠ []) ∧
    ((_get envParseErr "u" []).1 = Option.none ∧ (_get envParseErr "u" []).2 ≠ []) ∧
    _get (constEnv docC6) "u" [] = (some docC6, []) := by
  refine ⟨(c4__get_never_raises envNet "u" []).1 "connection refused" rfl,
    (c4__get_never_raises envHttp500 "u" []).2.1 500 "oops" rfl rfl,
    (c4__get_never_raises envParseErr "u" []).2.2.1 200 "not xml" "malformed xml body" rfl rfl rfl,
    (c4__get_never_raises (constEnv docC6) "u" []).2.2.2 200 "<xml/>" docC6 rfl rfl rfl⟩

-- ------------------------- C5 ------------------------------------------

/-- C5: when the fetch returns the absent sentinel, each of the three
query operations returns its empty result: an empty table for the two
listing functions, the empty mapping for the status lookup. -/
theorem c5_absent_fetch_empty_results :
    ∀ (env : FetchEnv) (sigla : Option String) (ano : Option Int)
      (palavra_chave codigo_situacao : Option String) (tramitando : Option Bool)
      (indicador : Option String) (codigo : String),
      ((_get env (BASE ++ "/materia/pesquisa/lista")
          (pesquisar_params sigla ano palavra_chave codigo_situacao tramitando indicador)).1
            = Option.none →
        (pesquisar_materias env sigla ano palavra_chave codigo_situacao tramitando indicador).1
          = Except.ok (DataFrame.mk [] [])) ∧
      ((_get env (BASE ++ "/materia/situacaoatual/" ++ codigo) []).1 = Option.none →
        (situacao_atual env codigo).1 = Except.ok []) ∧
      ((_get env (BASE ++ "/materia/atualizadas") []).1 = Option.none →
        (materias_atualizadas env).1 = Except.ok (DataFrame.mk [] [])) := by
  intro env sigla ano pc cs tr ind codigo
  refine ⟨?_, ?_, ?_⟩
  · intro h
    simp only [pesquisar_materias]
    cases hg : _get env (BASE ++ "/materia/pesquisa/lista")
        (pesquisar_params sigla ano pc cs tr ind) with
    | mk o errs =>
      rw [hg] at h
      cases h
      rfl
  · intro h
    simp only [situacao_atual]
    cases hg : _get env (BASE ++ "/materia/situacaoatual/" ++ codigo) [] with
    | mk o errs =>
      rw [hg] at h
      cases h
      rfl
  · intro h
    simp only [materias_atualizadas]
    cases hg : _get env (BASE ++ "/materia/atualizadas") [] with
    | mk o errs =>
      rw [hg] at h
      cases h
      rfl

/-- Witness for C5: a network-failing environment makes all three
operations return empty results. -/
theorem c5_witness :
    (pesquisar_materias envNet Option.none Option.none Option.none Option.none
      Option.none Option.none).1 = Except.ok (DataFrame.mk [] []) ∧
    (situacao_atual envNet "555").1 = Except.ok [] ∧
    (materias_atualizadas envNet).1 = Except.ok (DataFrame.mk [] []) := by
  refine ⟨(c5_absent_fetch_empty_results envNet Option.none Option.none Option.none
      Option.none Option.none Option.none "555").1 rfl,
    (c5_absent_fetch_empty_results envNet Option.none Option.none Option.none
      Option.none Option.none Option.none "555").2.1 rfl,
    (c5_absent_fetch_empty_results envNet Option.none Option.none Option.none
      Option.none Option.none Option.none "555").2.2 rfl⟩

-- ------------------------- C6 ------------------------------------------

lemma pyOr_falsy (a b : PyVal) (h : a.truthy = false) : pyOr a b = b := by
  simp [pyOr, h]

/-- Counterexample for C6: a status response that parses successfully but
holds no Materia and no SituacaoAtual content does NOT make
situacao_atual return the empty mapping; it returns the four-key record
with the input code as codigo. -/
theorem c6_counterexample :
    (situacao_atual (constEnv docC6) "123").1
      = Except.ok [("codigo", "123"), ("descricao", ""), ("data", ""), ("orgao", "")] ∧
    (situacao_atual (constEnv docC6) "123").1 ≠ Except.ok ([] : List (String × String)) := by
  constructor
  · rfl
  · intro h
    rw [show (situacao_atual (constEnv docC6) "123").1
        = Except.ok [("codigo", "123"), ("descricao", ""), ("data", ""), ("orgao", "")]
        from rfl] at h
    simp at h

/-- C6 amended: when the parsed document is truthy but its located Materia
and SituacaoAtual values are both falsy (absent or empty), the status
lookup returns the four-key mapping whose codigo is the cleaned input
code and whose other fields are empty strings; the empty mapping is
returned only when the fetch itself yields the absent sentinel or a
falsy document. -/
theorem c6_amended_no_record_status :
    ∀ (codigo : String) (doc : List (String × PyVal)) (mv sv : PyVal),
      pyGet (pyOr (dLookup doc "SituacaoAtualMateria") (PyVal.dict doc)) "Materia"
        = Except.ok mv →
      mv.truthy = false →
      pyGet (pyOr (dLookup doc "SituacaoAtualMateria") (PyVal.dict doc)) "SituacaoAtual"
        = Except.ok sv →
      sv.truthy = false →
      situacao_normalize codigo doc =
        Except.ok [("codigo", _clean_text (PyVal.str codigo)), ("descricao", ""),
                   ("data", ""), ("orgao", "")] := by
  intro codigo doc mv sv h1 hmv h2 hsv
  simp only [situacao_normalize, bind, Except.bind, h1, h2, pyOr_falsy mv (PyVal.dict []) hmv,
    pyOr_falsy sv (PyVal.dict []) hsv, pyGet_dict]
  rfl

/-- Witness for the amended C6 at the concrete empty-content response. -/
theorem c6_amended_witness :
    situacao_normalize "123" docC6
      = Except.ok [("codigo", "123"), ("descricao", ""), ("data", ""), ("orgao", "")] :=
  c6_amended_no_record_status "123" docC6 PyVal.none PyVal.none rfl rfl rfl rfl

-- ------------------------- C7 ------------------------------------------

lemma mem_str_seg (key : String) (o : Option String) (kv : String × PyVal) :
    (kv ∈ (match o with
           | some s => if s.isEmpty then [] else [(key, PyVal.str s)]
           | Option.none => ([] : List (String × PyVal)))) ↔
      ∃ s, o = some s ∧ s ≠ "" ∧ kv = (key, PyVal.str s) := by
  cases o with
  | none => simp
  | some s =>
    by_cases h : s.isEmpty
    · have he : s = "" := (String.isEmpty_iff s).mp h
      subst he
      simp [show ("" : String).isEmpty = true from rfl]
    · have hne : s ≠ "" := fun he => h ((String.isEmpty_iff s).mpr he)
      simp [h, hne]

lemma mem_ano_seg (o : Option Int) (kv : String × PyVal) :
    (kv ∈ (match o with
           | some n => if n = 0 then [] else [("ano", PyVal.int n)]
           | Option.none => ([] : List (String × PyVal)))) ↔
      ∃ n, o = some n ∧ n ≠ 0 ∧ kv = ("ano", PyVal.int n) := by
  cases o with
  | none => simp
  | some n =>
    by_cases h : n = 0
    · simp [h]
    · simp [h]

lemma mem_tram_seg (o : Option Bool) (kv : String × PyVal) :
    (kv ∈ (match o with
           | some b => [("tramitando", PyVal.str (cond b "S" "N"))]
           | Option.none => ([] : List (String × PyVal)))) ↔
      ∃ b, o = some b ∧ kv = ("tramitando", PyVal.str (cond b "S" "N")) := by
  cases o with
  | none => simp
  | some b => simp

/-- Counterexample for C7: a supplied-but-empty sigla filter is omitted
from the outbound parameters (so the mapping does not contain exactly
the supplied keys), and the supplied current-status-indicator flag is
passed through verbatim instead of being encoded "S"/"N". -/
theorem c7_counterexample :
    pesquisar_params (some "") Option.none Option.none Option.none Option.none Option.none
      = [] ∧
    (some "" : Option String) ≠ Option.none ∧
    pesquisar_params Option.none Option.none Option.none Option.none Option.none (some "X")
      = [("indicadorSituacaoAtual", PyVal.str "X")] := by
  refine ⟨rfl, ?_, rfl⟩
  intro h
  cases h

/-- C7 amended: a pair is in the outbound parameter mapping exactly when
its filter was supplied with a truthy value - empty strings and a zero
year are dropped - except tramitando, which is included whenever it is
not None and is encoded "S"/"N"; the current-status-indicator is a
string included verbatim when non-empty. -/
theorem c7_amended_param_membership :
    ∀ (sigla : Option String) (ano : Option Int) (palavra_chave codigo_situacao : Option String)
      (tramitando : Option Bool) (indicador : Option String) (kv : String × PyVal),
      kv ∈ pesquisar_params sigla ano palavra_chave codigo_situacao tramitando indicador ↔
        ((∃ s, sigla = some s ∧ s ≠ "" ∧ kv = ("sigla", PyVal.str s)) ∨
         (∃ n, ano = some n ∧ n ≠ 0 ∧ kv = ("ano", PyVal.int n)) ∨
         (∃ s, palavra_chave = some s ∧ s ≠ "" ∧ kv = ("palavraChave", PyVal.str s)) ∨
         (∃ s, codigo_situacao = some s ∧ s ≠ "" ∧ kv = ("codigoSituacao", PyVal.str s)) ∨
         (∃ b, tramitando = some b ∧ kv = ("tramitando", PyVal.str (cond b "S" "N"))) ∨
         (∃ s, indicador = some s ∧ s ≠ "" ∧ kv = ("indicadorSituacaoAtual", PyVal.str s))) := by
  intro sigla ano pc cs tr ind kv
  unfold pesquisar_params
  rw [List.mem_append, List.mem_append, List.mem_append, List.mem_append, List.mem_append]
  rw [mem_str_seg "sigla" sigla kv, mem_ano_seg ano kv, mem_str_seg "palavraChave" pc kv,
    mem_str_seg "codigoSituacao" cs kv, mem_tram_seg tr kv,
    mem_str_seg "indicadorSituacaoAtual" ind kv]
  simp only [or_assoc]

/-- Witness for the amended C7 at concrete filters: tramitando false is
encoded "N" and included, the empty sigla contributes nothing. -/
theorem c7_amended_witness :
    ("tramitando", PyVal.str "N")
      ∈ pesquisar_params (some "") Option.none Option.none Option.none (some false)
          Option.none := by
  exact (c7_amended_param_membership (some "") Option.none Option.none Option.none
      (some false) Option.none ("tramitando", PyVal.str "N")).mpr
    (Or.inr (Or.inr (Or.inr (Or.inr (Or.inl ⟨false, rfl, rfl⟩)))))

-- ------------------------- C8 ------------------------------------------

/-- C8: _clean_text is a total String-valued function (so its result is
always a string): None maps to the empty string, an int maps to its
decimal string (toString), and every other value maps to its Python
string form with surrounding whitespace stripped. -/
theorem c8__clean_text_total_cases :
    ∀ v : PyVal,
      _clean_text PyVal.none = "" ∧
      (∀ n : Int, _clean_text (PyVal.int n) = toString n) ∧
      (v ≠ PyVal.none → (∀ n : Int, v ≠ PyVal.int n) →
        _clean_text v = pyStrip (pyStr v)) := by
  intro v
  refine ⟨rfl, fun n => rfl, ?_⟩
  intro hn hi
  cases v with
  | none => cases hn rfl
  | int n => cases hi n rfl
  | str s => rfl
  | bool b => cases b <;> rfl
  | list l => rfl
  | dict d => rfl

/-- Witness for C8 at concrete values of each kind. -/
theorem c8_witness :
    _clean_text PyVal.none = "" ∧
    _clean_text (PyVal.int 42) = toString (42 : Int) ∧
    _clean_text (PyVal.str " a ") = pyStrip (pyStr (PyVal.str " a ")) := by
  refine ⟨(c8__clean_text_total_cases PyVal.none).1,
    (c8__clean_text_total_cases PyVal.none).2.1 42,
    (c8__clean_text_total_cases (PyVal.str " a ")).2.2
      (fun h => PyVal.noConfusion h) (fun n h => PyVal.noConfusion h)⟩

-- ------------------------- C9 ------------------------------------------

/-- C9: when the watchlist file exists, reads, and its content parses, the
parsed value is returned unchanged with no shape validation (a list,
number or null comes back as-is), and the fresh default is produced
through the fallback only when the content does not parse (or, per C3,
when the file is absent or unreadable): a parsed value different from
the fresh structure is returned, not replaced by it. -/
theorem c9_load_watchlist_returns_parsed_value :
    ∀ (jsonLoads : String → Except String PyVal) (t : String) (v : PyVal),
      (jsonLoads t = Except.ok v →
        load_watchlist true (Except.ok t) jsonLoads = v) ∧
      (jsonLoads t = Except.ok v → v ≠ freshWatchlist →
        load_watchlist true (Except.ok t) jsonLoads ≠ freshWatchlist) := by
  intro jl t v
  constructor
  · intro h
    simp [load_watchlist, h]
  · intro h hv
    simp [load_watchlist, h]
    exact hv

/-- Witness for C9: a file whose content parses to the number 5 loads as
the number 5, untouched and unreplaced. -/
theorem c9_witness :
    load_watchlist true (Except.ok "5") (fun _ => Except.ok (PyVal.int 5)) = PyVal.int 5 ∧
    load_watchlist true (Except.ok "5") (fun _ => Except.ok (PyVal.int 5)) ≠ freshWatchlist := by
  refine ⟨(c9_load_watchlist_returns_parsed_value (fun _ => Except.ok (PyVal.int 5)) "5"
      (PyVal.int 5)).1 rfl,
    (c9_load_watchlist_returns_parsed_value (fun _ => Except.ok (PyVal.int 5)) "5"
      (PyVal.int 5)).2 rfl (fun h => PyVal.noConfusion h)⟩

-- ------------------------- C10 -----------------------------------------

lemma except_bind_ok {α β : Type} (X : Except String α) (f : α → Except String β) (r : β)
    (h : (X >>= f) = Except.ok r) : ∃ x, X = Except.ok x ∧ f x = Except.ok r := by
  cases X with
  | error e => exact Except.noConfusion h
  | ok x => exact ⟨x, rfl, h⟩

/-- C10: a successful status normalization returns a mapping whose codigo
field is the Python expression cleaned-Materia-Codigo or cleaned-input,
so whenever the input code cleans to a non-empty string the codigo
field cannot be empty. -/
theorem c10_codigo_falls_back_to_input :
    ∀ (codigo : String) (doc : List (String × PyVal)) (res : List (String × String)),
      situacao_normalize codigo doc = Except.ok res →
      ∃ mv cv,
        pyGet (pyOr (dLookup doc "SituacaoAtualMateria") (PyVal.dict doc)) "Materia"
          = Except.ok mv ∧
        pyGet (pyOr mv (PyVal.dict [])) "Codigo" = Except.ok cv ∧
        rowLookup res "codigo"
          = some (strOr (_clean_text cv) (_clean_text (PyVal.str codigo))) ∧
        (_clean_text (PyVal.str codigo) ≠ "" →
          strOr (_clean_text cv) (_clean_text (PyVal.str codigo)) ≠ "") := by
  intro codigo doc res h
  rw [situacao_normalize] at h
  obtain ⟨mv, h1, h⟩ := except_bind_ok _ _ _ h
  obtain ⟨sv, h2, h⟩ := except_bind_ok _ _ _ h
  obtain ⟨cv, h3, h⟩ := except_bind_ok _ _ _ h
  obtain ⟨desc, h4, h⟩ := except_bind_ok _ _ _ h
  obtain ⟨dat, h5, h⟩ := except_bind_ok _ _ _ h
  obtain ⟨org, h6, h⟩ := except_bind_ok _ _ _ h
  cases h
  refine ⟨mv, cv, h1, h3, rfl, ?_⟩
  intro hcode hcontra
  by_cases ha : (_clean_text cv).isEmpty
  · rw [strOr, if_pos ha] at hcontra
    exact hcode hcontra
  · rw [strOr, if_neg ha] at hcontra
    exact ha ((String.isEmpty_iff (_clean_text cv)).mpr hcontra)

/-- Witness for C10 at the concrete empty-content response and the code
"123": the codigo cell is the input code, not empty. -/
theorem c10_witness :
    rowLookup [("codigo", "123"), ("descricao", ""), ("data", ""), ("orgao", "")] "codigo"
      ≠ some "" := by
  obtain ⟨mv, cv, h1, h2, h3, h4⟩ := c10_codigo_falls_back_to_input "123" docC6
    [("codigo", "123"), ("descricao", ""), ("data", ""), ("orgao", "")] rfl
  rw [h3]
  intro hc
  exact h4 (by decide) (Option.some.inj hc)
